import Mathlib

/-!
Verification development for the `bemcp` repository (src/bemcp/main.py,
src/bemcp/decorator.py): a shallow embedding of the retry policy, the
reconnect guard, the `MCPClient` connection lifecycle and the
`MCPManager` registry, together with theorems settling the spec claims.

Python exceptions are modelled with `Except`; asynchronous effects
(attempt counts, sleeps, resource acquisition and release,
disconnect/connect cycles) are made explicit as returned traces.
External collaborators (the stdio / SSE transports, the protocol
session, its `initialize` handshake, `AsyncExitStack.aclose`) are opaque
capabilities: their outcomes are inputs to the embedded functions, which
is exactly how the Python code consumes them.
-/

namespace BeMCP

/-- The exception values that flow through `decorator.py` and `main.py`:
`McpError` (carrying its message text), `anyio.BrokenResourceError`,
`ConnectionError` (the "Not connected to any server." precondition
failure), `ValueError` (configuration error), and any other exception
type, identified by a tag.  The guard in `decorator.py` catches only
`McpError` and `BrokenResourceError`. -/
inductive PyError where
  | mcpError (msg : String)
  | brokenResource
  | connectionError (msg : String)
  | valueError (msg : String)
  | other (tag : String)
deriving DecidableEq, Repr

/-- `listStartsWith needle hay`: the char list `needle` is an initial
segment of `hay` (helper for the substring test below). -/
def listStartsWith : List Char → List Char → Bool
  | [], _ => true
  | _ :: _, [] => false
  | a :: as, b :: bs => a == b && listStartsWith as bs

/-- `listHasSub needle hay`: `needle` occurs contiguously inside `hay`. -/
def listHasSub (needle : List Char) : List Char → Bool
  | [] => needle.isEmpty
  | b :: bs => listStartsWith needle (b :: bs) || listHasSub needle bs

/-- Python's `needle in hay` on strings. -/
def strHasSub (hay needle : String) : Bool :=
  listHasSub needle.toList hay.toList

/-- Python's `str.lower()` (ASCII case folding suffices for the two
signature phrases the guard looks for). -/
def strLower (s : String) : String :=
  ⟨s.toList.map Char.toLower⟩

/-! ## `async_retry` (decorator.py lines 21-47)

The Python loop `for attempt in range(max_retries + 1)` is embedded as a
recursion on the number of iterations still allowed after the current
one (`fuel`): at attempt index `i` the remaining fuel is
`maxRetries - i`, so `fuel > 0` is exactly the source's
`attempt < max_retries` test.  The attempt-indexed oracle
`op : Nat → Except E A` gives each attempt's outcome. -/

/-- Outcome of a retried operation: the final result, the number of
attempts actually made, and the total time slept between attempts. -/
structure RetryOutcome (E A : Type) where
  result : Except E A
  attempts : Nat
  totalSleep : ℚ
deriving Repr

/-- One pass of the `async_retry` wrapper loop, starting at attempt
index `attempt` with `fuel` further attempts allowed after this one. -/
def retryGo (op : Nat → Except E A) (delay : ℚ) : Nat → Nat → RetryOutcome E A
  | attempt, fuel =>
    match op attempt with
    | .ok a => ⟨.ok a, 1, 0⟩
    | .error e =>
      match fuel with
      | 0 => ⟨.error e, 1, 0⟩
      | fuel' + 1 =>
        let rest := retryGo op delay (attempt + 1) fuel'
        ⟨rest.result, rest.attempts + 1, rest.totalSleep + delay⟩

/-- `async_retry(max_retries, delay)` applied to an operation whose
attempt-by-attempt outcomes are `op`. -/
def async_retry (maxRetries : Nat) (delay : ℚ) (op : Nat → Except E A) :
    RetryOutcome E A :=
  retryGo op delay 0 maxRetries

/-! ## `reconnect_on_connection_error` (decorator.py lines 50-83) -/

/-- The classification computed inside the guard's `except` clause:
an `McpError` is a connection error iff its lowercased text contains
"connection closed" or "peer closed connection"; a
`BrokenResourceError` always is; nothing else is. -/
def is_connection_error (e : PyError) : Bool :=
  match e with
  | .mcpError msg =>
      strHasSub (strLower msg) "connection closed" ||
      strHasSub (strLower msg) "peer closed connection"
  | .brokenResource => true
  | _ => false

/-- Whether the guard's `except (McpError, BrokenResourceError)` clause
catches the exception at all. -/
def caughtByGuard (e : PyError) : Bool :=
  match e with
  | .mcpError _ => true
  | .brokenResource => true
  | _ => false

/-- Everything the guarded wrapper consults, in consultation order: the
first invocation of the wrapped method, the `self.disconnect()` call,
the `self.connect()` call, and the single re-invocation. -/
structure GuardEnv (A : Type) where
  firstCall : Except PyError A
  disconnectResult : Except PyError Unit
  connectResult : Except PyError Unit
  retryCall : Except PyError A
deriving Repr

/-- Observable effects of one guarded call: how many times
`self.disconnect()` / `self.connect()` were attempted, how many times
the wrapped method was invoked, and how many reconnect cycles
(entries into the connection-error recovery branch) happened. -/
structure GuardTrace where
  disconnects : Nat
  connects : Nat
  invocations : Nat
  cycles : Nat
deriving DecidableEq, Repr

/-- The `reconnect_on_connection_error` wrapper.  Mirrors the source:
on success pass the result through; on a caught exception classify it;
for a connection error run `disconnect(); connect(); func(...)` inside a
`try` whose `except` re-raises the original exception `e`; otherwise
re-raise; uncaught exception types propagate unchanged. -/
def reconnect_on_connection_error (env : GuardEnv A) :
    Except PyError A × GuardTrace :=
  match env.firstCall with
  | .ok a => (.ok a, ⟨0, 0, 1, 0⟩)
  | .error e =>
    if caughtByGuard e then
      if is_connection_error e then
        match env.disconnectResult with
        | .error _ => (.error e, ⟨1, 0, 1, 1⟩)
        | .ok _ =>
          match env.connectResult with
          | .error _ => (.error e, ⟨1, 1, 1, 1⟩)
          | .ok _ =>
            match env.retryCall with
            | .ok a => (.ok a, ⟨1, 1, 2, 1⟩)
            | .error _ => (.error e, ⟨1, 1, 2, 1⟩)
      else (.error e, ⟨0, 0, 1, 0⟩)
    else (.error e, ⟨0, 0, 1, 0⟩)

/-! ## `MCPClient` (main.py lines 11-101)

The server configuration dictionary is modelled by the presence/content
of its two recognized selector keys (`args`, `env` and the SSE extra
parameters play no role in the logic under verification).  The client
holds the optional session handle and the optional `AsyncExitStack`,
whose content is the ordered list of resources it currently owns. -/

/-- The two keys of the configuration dictionary that `MCPClient`
inspects.  `command = some c` means the key `"command"` is present with
value `c`; likewise for `url`. -/
structure ServerConfig where
  command : Option String
  url : Option String
deriving DecidableEq, Repr

/-- A resource entered into the client's `AsyncExitStack`, in
acquisition order: the transport context (stdio or SSE), then the
`ClientSession` context. -/
inductive Resource where
  | transport
  | sessionRes
deriving DecidableEq, Repr

/-- Which transport branch `__aenter__` takes. -/
inductive TransportKind where
  | stdio
  | sse
deriving DecidableEq, Repr

/-- The mutable fields of an `MCPClient`: the (immutable) configuration,
`self.session` (`some ()` when the handle is non-null) and
`self._exit_stack` (`none` when the attribute is `None`, otherwise the
list of resources the stack still owns; a closed stack is `some []`). -/
structure MCPClient where
  server_config : ServerConfig
  session : Option Unit
  exitStack : Option (List Resource)
deriving DecidableEq, Repr

/-- `MCPClient.__init__`: raises `ValueError` iff neither `"command"`
nor `"url"` is in the configuration (`if not ("command" in server_config
or "url" in server_config)`). -/
def MCPClient.init (cfg : ServerConfig) : Except PyError MCPClient :=
  if cfg.command.isNone && cfg.url.isNone then
    .error (.valueError "Server config must contain 'command' or 'url'")
  else
    .ok ⟨cfg, none, none⟩

/-- Resources currently held by the client (empty when the stack is
absent or closed). -/
def MCPClient.heldResources (c : MCPClient) : List Resource :=
  c.exitStack.getD []

/-- The spec's connection-state enum.  The Python code keeps no explicit
state variable; a client counts as `Connected` exactly when it holds
live acquired resources (transport + session contexts on its stack),
and as `Disconnected` when it holds none.  The transient `Connecting`
state is never observable between operations. -/
inductive ConnectionState where
  | Disconnected
  | Connecting
  | Connected
deriving DecidableEq, Repr

/-- Observable connection state of a client between operations. -/
def MCPClient.stateOf (c : MCPClient) : ConnectionState :=
  if c.heldResources.isEmpty then .Disconnected else .Connected

/-- Events of one `__aenter__` body: which transport branch was chosen,
whether the `ClientSession` context was entered, and whether the
`initialize` handshake was run. -/
inductive AcqEvent where
  | chooseTransport (k : TransportKind)
  | enterSession
  | runHandshake
deriving DecidableEq, Repr

/-- Outcomes of the three externally-failable steps of one `__aenter__`
attempt: entering the transport context (`stdio_client` / `sse_client`),
entering the `ClientSession` context, and `session.initialize()`. -/
structure ConnectEnv where
  transportOk : Except PyError Unit
  sessionOk : Except PyError Unit
  initOk : Except PyError Unit
deriving Repr

/-- Result of one lifecycle step on a client: the updated client, the
Python-level outcome (`.ok ()` models `return self` / normal return),
and the acquisition events that occurred. -/
structure StepResult where
  client : MCPClient
  result : Except PyError Unit
  events : List AcqEvent
deriving Repr

/-- The body of `MCPClient.__aenter__` (one attempt, before the
`async_retry` wrapping): if `self.session` is truthy return self at
once; otherwise build a fresh `AsyncExitStack`, enter the transport
chosen by the presence of `"command"`, enter the `ClientSession`
(assigning `self.session` BEFORE the handshake), run `initialize`; on
any exception close the stack — which releases all resources but, in
the source, does NOT reset `self.session` — and re-raise. -/
def MCPClient.aenter (env : ConnectEnv) (c : MCPClient) : StepResult :=
  if c.session.isSome then
    ⟨c, .ok (), []⟩
  else
    let k : TransportKind :=
      if c.server_config.command.isSome then .stdio else .sse
    match env.transportOk with
    | .error e =>
        ⟨{ c with exitStack := some [] }, .error e, [.chooseTransport k]⟩
    | .ok _ =>
      match env.sessionOk with
      | .error e =>
          ⟨{ c with exitStack := some [] }, .error e,
            [.chooseTransport k]⟩
      | .ok _ =>
        match env.initOk with
        | .error e =>
            ⟨{ c with session := some (), exitStack := some [] },
              .error e,
              [.chooseTransport k, .enterSession, .runHandshake]⟩
        | .ok _ =>
            ⟨⟨c.server_config, some (), some [.transport, .sessionRes]⟩,
              .ok (),
              [.chooseTransport k, .enterSession, .runHandshake]⟩

/-- The `async_retry(max_retries=2)` loop around `__aenter__`, with the
client state threaded through the attempts.  Returns the final client,
the outcome, the accumulated events, and the number of attempts made.
`fuel` counts the iterations still allowed after the current one, so
`fuel > 0` is the source's `attempt < max_retries`. -/
def MCPClient.connectGo (envs : Nat → ConnectEnv) :
    Nat → Nat → MCPClient → StepResult × Nat
  | attempt, fuel, c =>
    let s := MCPClient.aenter (envs attempt) c
    match s.result with
    | .ok _ => (s, 1)
    | .error e =>
      match fuel with
      | 0 => (⟨s.client, .error e, s.events⟩, 1)
      | fuel' + 1 =>
        let (s', n) := MCPClient.connectGo envs (attempt + 1) fuel' s.client
        (⟨s'.client, s'.result, s.events ++ s'.events⟩, n + 1)

/-- `MCPClient.connect` = `await self.__aenter__()` with its
`@async_retry(max_retries=2)` decorator. -/
def MCPClient.connect (envs : Nat → ConnectEnv) (c : MCPClient) :
    StepResult × Nat :=
  MCPClient.connectGo envs 0 2 c

/-- `MCPClient.__aexit__` / `disconnect`: if `self._exit_stack` is set,
`await self._exit_stack.aclose()` (outcome `closeResult`; a raising
close still unwinds the stack's resources but propagates, skipping the
two assignments that follow), then `self.session = None` and
`self._exit_stack = None`.  With no stack the body does nothing. -/
def MCPClient.aexit (closeResult : Except PyError Unit) (c : MCPClient) :
    MCPClient × Except PyError Unit :=
  if c.exitStack.isSome then
    match closeResult with
    | .error e => ({ c with exitStack := some [] }, .error e)
    | .ok _ => ({ c with session := none, exitStack := none }, .ok ())
  else
    (c, .ok ())

/-! ## `MCPManager` (main.py lines 104-166) -/

/-- The manager's `self.clients` dictionary, as an insertion-ordered
association list. -/
abbrev Registry : Type := List (String × MCPClient)

/-- `MCPManager.add_server(name, config)`: no-op if `name` is already a
key of `self.clients`; otherwise construct `MCPClient(config)` (which
may raise), enter it on the manager's stack — i.e. run the client's
retry-wrapped `__aenter__` — and only on success store it under `name`.
Returns the registry, the outcome, and how many `connect` calls (client
context entries) were performed. -/
def MCPManager.add_server (m : Registry) (name : String)
    (cfg : ServerConfig) (envs : Nat → ConnectEnv) :
    Registry × Except PyError Unit × Nat :=
  if (m.lookup name).isSome then
    (m, .ok (), 0)
  else
    match MCPClient.init cfg with
    | .error e => (m, .error e, 0)
    | .ok c =>
      let (s, _) := MCPClient.connect envs c
      match s.result with
      | .error e => (m, .error e, 1)
      | .ok _ => (m ++ [(name, s.client)], .ok (), 1)

/-! ## Helper lemmas -/

/-- If the operation fails at every attempt index in the window of the
loop, `retryGo` makes `fuel + 1` attempts, sleeps `fuel` times, and
returns the error of the last attempt. -/
theorem retryGo_all_fail (op : Nat → Except E A) (delay : ℚ) (errs : Nat → E) :
    ∀ fuel attempt,
      (∀ i, attempt ≤ i → i ≤ attempt + fuel → op i = .error (errs i)) →
      retryGo op delay attempt fuel =
        ⟨.error (errs (attempt + fuel)), fuel + 1, (fuel : ℚ) * delay⟩ := by
  intro fuel
  induction fuel with
  | zero =>
    intro attempt h
    have h0 := h attempt le_rfl (by omega)
    simp [retryGo, h0]
  | succ fuel ih =>
    intro attempt h
    have h0 := h attempt le_rfl (by omega)
    have hrest := ih (attempt + 1) (fun i h1 h2 => h i (by omega) (by omega))
    have harith : attempt + 1 + fuel = attempt + (fuel + 1) := by omega
    rw [harith] at hrest
    simp only [retryGo, h0, hrest]
    refine congrArg₂ (RetryOutcome.mk _) rfl ?_
    push_cast
    ring

/-- If the operation fails for `d` attempts and then succeeds, and at
least `d` retries remain, `retryGo` returns the success, having made
`d + 1` attempts and slept `d` times. -/
theorem retryGo_eventual_success (op : Nat → Except E A) (delay : ℚ)
    (errs : Nat → E) (a : A) :
    ∀ d attempt fuel, d ≤ fuel →
      (∀ i, attempt ≤ i → i < attempt + d → op i = .error (errs i)) →
      op (attempt + d) = .ok a →
      retryGo op delay attempt fuel = ⟨.ok a, d + 1, (d : ℚ) * delay⟩ := by
  intro d
  induction d with
  | zero =>
    intro attempt fuel _ _ hsucc
    simp only [Nat.add_zero] at hsucc
    simp [retryGo, hsucc]
  | succ d ih =>
    intro attempt fuel hdf hfail hsucc
    have h0 := hfail attempt le_rfl (by omega)
    match fuel, hdf with
    | fuel + 1, hdf =>
      have harith : attempt + 1 + d = attempt + (d + 1) := by omega
      have hrest := ih (attempt + 1) fuel (by omega)
        (fun i h1 h2 => hfail i (by omega) (by omega))
        (by rw [harith]; exact hsucc)
      simp only [retryGo, h0, hrest]
      refine congrArg₂ (RetryOutcome.mk _) rfl ?_
      push_cast
      ring

/-- A connection-loss error is one of the exception types the guard's
`except` clause catches. -/
theorem conn_caught (e : PyError) (h : is_connection_error e = true) :
    caughtByGuard e = true := by
  cases e <;> simp_all [is_connection_error, caughtByGuard]

/-- Looking a key up in an appended association list skips a first part
that does not contain it. -/
theorem lookup_append_of_notfound {α β : Type} [BEq α]
    (m l : List (α × β)) (a : α) (h : m.lookup a = none) :
    (m ++ l).lookup a = l.lookup a := by
  induction m with
  | nil => simp
  | cons p m ih =>
    rcases p with ⟨k, v⟩
    cases hk : (a == k) with
    | true => simp [List.lookup, hk] at h
    | false =>
      simp only [List.lookup, hk] at h
      simpa [List.lookup, hk] using ih h

/-! ## Claim theorems -/

/-- C3: if an operation wrapped by `async_retry(maxRetries, delay)`
fails on every attempt, exactly `maxRetries + 1` attempts are made and
the failure propagated to the caller is the very error value of the
last attempt (identity, type and message unchanged). -/
theorem async_retry_all_fail (maxRetries : Nat) (delay : ℚ)
    (op : Nat → Except E A) (errs : Nat → E)
    (h : ∀ i, i ≤ maxRetries → op i = .error (errs i)) :
    async_retry maxRetries delay op =
      ⟨.error (errs maxRetries), maxRetries + 1, (maxRetries : ℚ) * delay⟩ := by
  have hr := retryGo_all_fail op delay errs maxRetries 0
    (fun i h1 h2 => h i (by omega))
  simpa [async_retry] using hr

/-- Witness for C3: an operation failing at every attempt under
`async_retry(max_retries=2, delay=1)` is attempted 3 times and the
third attempt's error is what propagates. -/
theorem async_retry_all_fail_witness :
    async_retry 2 1 (fun i => (.error i : Except Nat Nat)) =
      ⟨.error 2, 3, 2⟩ := by
  have h := async_retry_all_fail 2 1
    (fun i => (.error i : Except Nat Nat)) (fun i => i) (fun i _ => rfl)
  rw [h]
  norm_num

/-- C4: if the operation fails on its first `k` attempts
(`k ≤ maxRetries`) and succeeds on attempt `k + 1`, `async_retry`
returns that success, makes no attempt after it (`k + 1` attempts in
total), and sleeps `k × delay` across the inter-attempt waits. -/
theorem async_retry_eventual_success (maxRetries : Nat) (delay : ℚ)
    (op : Nat → Except E A) (errs : Nat → E) (k : Nat) (a : A)
    (hk : k ≤ maxRetries)
    (hfail : ∀ i, i < k → op i = .error (errs i))
    (hsucc : op k = .ok a) :
    async_retry maxRetries delay op = ⟨.ok a, k + 1, (k : ℚ) * delay⟩ := by
  have hr := retryGo_eventual_success op delay errs a k 0 maxRetries hk
    (fun i h1 h2 => hfail i (by omega)) (by simpa using hsucc)
  simpa [async_retry] using hr

/-- Witness for C4: one failure then a success under
`async_retry(max_retries=2, delay=1)` yields the success after 2
attempts with a total sleep of 1. -/
theorem async_retry_eventual_success_witness :
    async_retry 2 1
        (fun i => if i == 0 then (.error "boom" : Except String Nat) else .ok 42) =
      ⟨.ok 42, 2, 1⟩ := by
  have h := async_retry_eventual_success 2 1
    (fun i => if i == 0 then (.error "boom" : Except String Nat) else .ok 42)
    (fun _ => "boom") 1 42 (by omega)
    (by intro i hi; interval_cases i; rfl) rfl
  rw [h]
  norm_num

/-- C1: a guarded protocol operation failing with a connection-loss
error triggers exactly one disconnect+connect+retry cycle; if the
retried invocation succeeds its result is returned; if the reconnect
(disconnect or connect) or the retried invocation fails, the caller
observes the original pre-reconnect error `e`, not the reconnection
failure. -/
theorem guard_connection_loss {A : Type} (env : GuardEnv A) (e : PyError)
    (h1 : env.firstCall = .error e)
    (h2 : is_connection_error e = true) :
    (reconnect_on_connection_error env).2.cycles = 1 ∧
    (reconnect_on_connection_error env).2.disconnects = 1 ∧
    (reconnect_on_connection_error env).1 =
      (match env.disconnectResult, env.connectResult, env.retryCall with
       | .ok _, .ok _, .ok a => .ok a
       | _, _, _ => .error e) := by
  have hc := conn_caught e h2
  unfold reconnect_on_connection_error
  rw [h1]
  simp only [hc, h2, if_true]
  cases env.disconnectResult <;> cases env.connectResult <;>
    cases env.retryCall <;> simp

/-- Witness for C1: a `BrokenResourceError` on the first invocation
with disconnect, connect and the retried call all succeeding yields one
cycle, one disconnect, and the retried call's result. -/
theorem guard_connection_loss_witness :
    (reconnect_on_connection_error
        (⟨.error .brokenResource, .ok (), .ok (), .ok 7⟩ : GuardEnv Nat)).2.cycles = 1 ∧
    (reconnect_on_connection_error
        (⟨.error .brokenResource, .ok (), .ok (), .ok 7⟩ : GuardEnv Nat)).2.disconnects = 1 ∧
    (reconnect_on_connection_error
        (⟨.error .brokenResource, .ok (), .ok (), .ok 7⟩ : GuardEnv Nat)).1 = .ok 7 :=
  guard_connection_loss
    (⟨.error .brokenResource, .ok (), .ok (), .ok 7⟩ : GuardEnv Nat)
    .brokenResource rfl rfl

/-- C6: a guarded operation failing with an error not classified as
connection-loss (an `McpError` without a recognized signature, or any
exception type the guard does not watch) performs no disconnect and no
connect, and the failure propagates to the caller untouched. -/
theorem guard_non_connection_error {A : Type} (env : GuardEnv A) (e : PyError)
    (h1 : env.firstCall = .error e)
    (h2 : is_connection_error e = false) :
    reconnect_on_connection_error env = (.error e, ⟨0, 0, 1, 0⟩) := by
  unfold reconnect_on_connection_error
  rw [h1]
  cases hc : caughtByGuard e <;> simp [h2, hc]

/-- Witness for C6: an `McpError` whose message carries no
connection-loss signature propagates unchanged with zero
disconnects and zero connects. -/
theorem guard_non_connection_error_witness :
    reconnect_on_connection_error
        (⟨.error (.mcpError "Invalid params"), .ok (), .ok (), .ok 0⟩ : GuardEnv Nat) =
      (.error (.mcpError "Invalid params"), ⟨0, 0, 1, 0⟩) :=
  guard_non_connection_error
    (⟨.error (.mcpError "Invalid params"), .ok (), .ok (), .ok 0⟩ : GuardEnv Nat)
    (.mcpError "Invalid params") rfl (by decide)

/-- C2 (code-bug exhibit): a connect attempt on a fresh client in which
the transport and session contexts are entered but `initialize` raises
leaves the client with every acquired resource released (Disconnected)
while `self.session` is still the non-null dead handle — the except
block in `__aenter__` closes the exit stack but never resets
`self.session` — so the invariant "session is non-null iff Connected"
is violated; worse, the retry-wrapped `connect()` then "succeeds" on
its second attempt by hitting the `if self.session: return self` early
exit, reporting success on a client with no live resources. -/
theorem session_invariant_violated_on_failed_handshake :
    (MCPClient.aenter ⟨.ok (), .ok (), .error (.other "InitFailure")⟩
        ⟨⟨some "uv", none⟩, none, none⟩).result = .error (.other "InitFailure") ∧
    (MCPClient.aenter ⟨.ok (), .ok (), .error (.other "InitFailure")⟩
        ⟨⟨some "uv", none⟩, none, none⟩).client.heldResources = [] ∧
    (MCPClient.aenter ⟨.ok (), .ok (), .error (.other "InitFailure")⟩
        ⟨⟨some "uv", none⟩, none, none⟩).client.session = some () ∧
    ¬ ((MCPClient.aenter ⟨.ok (), .ok (), .error (.other "InitFailure")⟩
          ⟨⟨some "uv", none⟩, none, none⟩).client.session ≠ none ↔
        (MCPClient.aenter ⟨.ok (), .ok (), .error (.other "InitFailure")⟩
          ⟨⟨some "uv", none⟩, none, none⟩).client.stateOf = .Connected) ∧
    (MCPClient.connect (fun _ => ⟨.ok (), .ok (), .error (.other "InitFailure")⟩)
        ⟨⟨some "uv", none⟩, none, none⟩).1.result = .ok () ∧
    (MCPClient.connect (fun _ => ⟨.ok (), .ok (), .error (.other "InitFailure")⟩)
        ⟨⟨some "uv", none⟩, none, none⟩).1.client.heldResources = [] := by
  refine ⟨rfl, rfl, rfl, ?_, rfl, rfl⟩
  decide

/-- C5 (counterexample): a configuration carrying both the `command`
and the `url` key is accepted by `MCPClient.__init__` — construction
succeeds instead of raising the configuration error the claim
requires for a not-exactly-one configuration. -/
theorem init_accepts_both_keys :
    MCPClient.init ⟨some "run-server", some "http://localhost"⟩ =
      .ok ⟨⟨some "run-server", some "http://localhost"⟩, none, none⟩ := rfl

/-- C5 (amended): construction raises a configuration error exactly
when the configuration contains neither `command` nor `url`; any
configuration with at least one of the two keys is accepted. -/
theorem init_error_iff_no_keys (cfg : ServerConfig) :
    (∃ e, MCPClient.init cfg = .error e) ↔
      (cfg.command = none ∧ cfg.url = none) := by
  rcases cfg with ⟨cmd, u⟩
  cases cmd <;> cases u <;> simp [MCPClient.init]

/-- C7 (counterexample): on a connected client whose underlying
`aclose()` raises, `disconnect` propagates that failure to the caller
(there is no try/except in `__aexit__`) and the session handle is not
cleared — contradicting "never propagates a failure". -/
theorem disconnect_propagates_close_failure :
    MCPClient.aexit (.error (.other "CloseFailure"))
        ⟨⟨some "uv", none⟩, some (), some [.transport, .sessionRes]⟩ =
      (⟨⟨some "uv", none⟩, some (), some []⟩, .error (.other "CloseFailure")) ∧
    (MCPClient.aexit (.error (.other "CloseFailure"))
        ⟨⟨some "uv", none⟩, some (), some [.transport, .sessionRes]⟩).1.session =
      some () :=
  ⟨rfl, rfl⟩

/-- C7 (amended): whenever releasing the underlying resources does not
itself raise, `disconnect` propagates no failure to the caller; if the
client held an exit stack it ends Disconnected with a null session and
no stack, and with no stack the call is a no-op that still reports
success. -/
theorem disconnect_ok_when_close_ok (c : MCPClient) :
    (MCPClient.aexit (.ok ()) c).2 = .ok () ∧
    (c.exitStack.isSome = true →
      (MCPClient.aexit (.ok ()) c).1.session = none ∧
      (MCPClient.aexit (.ok ()) c).1.exitStack = none ∧
      (MCPClient.aexit (.ok ()) c).1.stateOf = .Disconnected) := by
  cases hs : c.exitStack <;>
    simp [MCPClient.aexit, hs, MCPClient.stateOf, MCPClient.heldResources]

/-- Witness for the amended C7: a connected client whose `aclose`
succeeds ends up with result ok and a cleared session. -/
theorem disconnect_ok_when_close_ok_witness :
    (MCPClient.aexit (.ok ())
        ⟨⟨some "uv", none⟩, some (), some [.transport, .sessionRes]⟩).2 = .ok () ∧
    (MCPClient.aexit (.ok ())
        ⟨⟨some "uv", none⟩, some (), some [.transport, .sessionRes]⟩).1.session =
      none := by
  have h := disconnect_ok_when_close_ok
    ⟨⟨some "uv", none⟩, some (), some [.transport, .sessionRes]⟩
  exact ⟨h.1, (h.2 rfl).1⟩

/-- C8: `connect()` on a client whose session handle is set (a
Connected client) is an idempotent no-op: the retry-wrapped
`__aenter__` hits the `if self.session: return self` early exit on its
first attempt, returning the unchanged client itself after exactly one
attempt with no transport/session acquisition and no handshake. -/
theorem connect_idempotent_when_connected (envs : Nat → ConnectEnv)
    (c : MCPClient) (h : c.session = some ()) :
    MCPClient.connect envs c = (⟨c, .ok (), []⟩, 1) := by
  unfold MCPClient.connect MCPClient.connectGo MCPClient.aenter
  simp [h]

/-- Witness for C8: a concrete connected client is returned unchanged
by `connect`, with one attempt and no acquisition events. -/
theorem connect_idempotent_when_connected_witness :
    MCPClient.connect (fun _ => ⟨.ok (), .ok (), .ok ()⟩)
        ⟨⟨some "uv", none⟩, some (), some [.transport, .sessionRes]⟩ =
      (⟨⟨⟨some "uv", none⟩, some (), some [.transport, .sessionRes]⟩, .ok (), []⟩, 1) :=
  connect_idempotent_when_connected (fun _ => ⟨.ok (), .ok (), .ok ()⟩)
    ⟨⟨some "uv", none⟩, some (), some [.transport, .sessionRes]⟩ rfl

/-- C10: a configuration carrying both `command` and `url` is accepted
at construction, and `connect` on the resulting client takes the
subprocess (stdio) transport branch — `command` wins because
`__aenter__` tests `if "command" in self.server_config` first, ignoring
`url`. -/
theorem both_keys_choose_stdio (cmd u : String) (env : ConnectEnv) :
    MCPClient.init ⟨some cmd, some u⟩ =
      .ok ⟨⟨some cmd, some u⟩, none, none⟩ ∧
    (MCPClient.aenter env ⟨⟨some cmd, some u⟩, none, none⟩).events.head? =
      some (.chooseTransport .stdio) := by
  refine ⟨by simp [MCPClient.init], ?_⟩
  rcases env with ⟨t, s, i⟩
  cases t <;> cases s <;> cases i <;> simp [MCPClient.aenter]

/-- C9: when `add_server(name, cfg)` on a registry not yet containing
`name` succeeds, it performed exactly one connect, and a second
`add_server` with the same `name` (any configuration, any connect
outcomes) is a no-op: it performs zero connects, reports success, and
leaves the registry — in particular the existing client and the
registry size — unchanged; exactly one connect happens across the two
calls. -/
theorem add_server_second_call_noop (m : Registry) (name : String)
    (cfg1 cfg2 : ServerConfig) (envs1 envs2 : Nat → ConnectEnv)
    (h0 : m.lookup name = none)
    (h1 : (MCPManager.add_server m name cfg1 envs1).2.1 = .ok ()) :
    (MCPManager.add_server m name cfg1 envs1).2.2 = 1 ∧
    MCPManager.add_server (MCPManager.add_server m name cfg1 envs1).1
        name cfg2 envs2 =
      ((MCPManager.add_server m name cfg1 envs1).1, .ok (), 0) := by
  unfold MCPManager.add_server at h1 ⊢
  simp only [h0, Option.isSome_none, Bool.false_eq_true, if_false] at h1 ⊢
  cases hi : MCPClient.init cfg1 with
  | error e => simp [hi] at h1
  | ok c =>
    simp only [hi] at h1 ⊢
    rcases hsn : MCPClient.connect envs1 c with ⟨s, n⟩
    simp only [hsn] at h1 ⊢
    cases hr : s.result with
    | error e => simp [hr] at h1
    | ok _ =>
      simp only [hr]
      have hl : ((m ++ [(name, s.client)]).lookup name).isSome = true := by
        rw [lookup_append_of_notfound m _ name h0]
        simp [List.lookup]
      simp [hl]

/-- Witness for C9: adding the same server name twice to an empty
manager connects once and the second call changes nothing. -/
theorem add_server_second_call_noop_witness :
    (MCPManager.add_server [] "srv" ⟨some "uv", none⟩
        (fun _ => ⟨.ok (), .ok (), .ok ()⟩)).2.2 = 1 ∧
    MCPManager.add_server
        (MCPManager.add_server [] "srv" ⟨some "uv", none⟩
          (fun _ => ⟨.ok (), .ok (), .ok ()⟩)).1
        "srv" ⟨some "uv", none⟩ (fun _ => ⟨.ok (), .ok (), .ok ()⟩) =
      ((MCPManager.add_server [] "srv" ⟨some "uv", none⟩
          (fun _ => ⟨.ok (), .ok (), .ok ()⟩)).1, .ok (), 0) :=
  add_server_second_call_noop [] "srv" ⟨some "uv", none⟩ ⟨some "uv", none⟩
    (fun _ => ⟨.ok (), .ok (), .ok ()⟩) (fun _ => ⟨.ok (), .ok (), .ok ()⟩)
    rfl rfl

end BeMCP
